import Mathlib

/-
Verification of the evidence-extraction engine of PolicyAnalizerLLM
(`rules.py`): a regex pattern catalog over Italian privacy-policy text,
a scanner producing match records with context snippets, and a grouped
evidence view keyed by checklist ids.

The embedding models text as `List Char` (Python strings are sequences of
code points, and all offsets in `rules.py` are code-point offsets).
Regular expressions are embedded as an abstract syntax tree `RE`
translated pattern-by-pattern from the source strings, and matched by a
backtracking matcher that reproduces Python `re` priority semantics:
alternation prefers the left branch, `*`/`+`/`?`/`{m,n}` are greedy,
`+?` is lazy, and `finditer` yields leftmost non-overlapping matches.
All patterns in `rules.py` are compiled with `re.IGNORECASE`, so case
folding is built into character matching.  `re.MULTILINE` only affects
`^`/`$`, which no pattern of the catalog uses.
-/

namespace PolicyRules

/- ASCII apostrophe, kept out of string literals. -/
def apo : Char := Char.ofNat 39

/- Python lower-casing restricted to ASCII and Latin-1, the ranges the
catalog's character classes draw from. -/
def pyLower (c : Char) : Char :=
  if 65 ≤ c.toNat ∧ c.toNat ≤ 90 then Char.ofNat (c.toNat + 32)
  else if 192 ≤ c.toNat ∧ c.toNat ≤ 222 ∧ c.toNat ≠ 215 then Char.ofNat (c.toNat + 32)
  else c

def pyUpper (c : Char) : Char :=
  if 97 ≤ c.toNat ∧ c.toNat ≤ 122 then Char.ofNat (c.toNat - 32)
  else if 224 ≤ c.toNat ∧ c.toNat ≤ 254 ∧ c.toNat ≠ 247 then Char.ofNat (c.toNat - 32)
  else c

/- Python `str` whitespace (`\s` under `re` with Unicode semantics). -/
def isPySpace (c : Char) : Bool :=
  let n := c.toNat
  (9 ≤ n ∧ n ≤ 13) || n = 32 || (28 ≤ n ∧ n ≤ 31) || n = 133 || n = 160 ||
  n = 5760 || (8192 ≤ n ∧ n ≤ 8202) || n = 8232 || n = 8233 || n = 8239 ||
  n = 8287 || n = 12288

def isPyDigit (c : Char) : Bool :=
  48 ≤ c.toNat ∧ c.toNat ≤ 57

/- Python `\w` restricted to ASCII and Latin-1 (letters, digits,
underscore, plus the Latin-1 letter block). -/
def isPyWord (c : Char) : Bool :=
  let n := c.toNat
  isPyDigit c || (65 ≤ n ∧ n ≤ 90) || (97 ≤ n ∧ n ≤ 122) || n = 95 ||
  n = 170 || n = 181 || n = 186 ||
  (192 ≤ n ∧ n ≤ 255 ∧ n ≠ 215 ∧ n ≠ 247)

/- One item of a character class. -/
inductive CI where
  | ch (c : Char)
  | range (lo hi : Char)
  | digit
  | space
  | word
deriving DecidableEq

/- Case-insensitive character-class item matching (every pattern of the
catalog is compiled with `re.IGNORECASE`). -/
def ciMatch (c : Char) : CI → Bool
  | .ch d => pyLower c = pyLower d
  | .range lo hi =>
      (decide (lo ≤ c) && decide (c ≤ hi)) ||
      (decide (lo ≤ pyLower c) && decide (pyLower c ≤ hi)) ||
      (decide (lo ≤ pyUpper c) && decide (pyUpper c ≤ hi))
  | .digit => isPyDigit c
  | .space => isPySpace c
  | .word => isPyWord c

/- Regex AST: the fragment of Python `re` syntax the catalog uses.
`star` is greedy `*`, `lstar` is lazy `*?` (the catalog reaches it only
through the lazy plus `+?` that appears in `DUR`), `wordB` is `\b`. -/
inductive RE where
  | eps
  | cls (items : List CI)
  | dot
  | wordB
  | alt (a b : RE)
  | seq (a b : RE)
  | star (a : RE)
  | lstar (a : RE)
deriving DecidableEq

/- Can the expression match the empty string? -/
def nullable : RE → Bool
  | .eps => true
  | .cls _ => false
  | .dot => false
  | .wordB => true
  | .alt a b => nullable a || nullable b
  | .seq a b => nullable a && nullable b
  | .star _ => true
  | .lstar _ => true

def isWordAt (s : List Char) (i : Nat) : Bool :=
  match s[i]? with
  | some c => isPyWord c
  | none => false

/- Does the character at position `i` (if any) match the class? -/
def clsTest (items : List CI) (s : List Char) (i : Nat) : Bool :=
  match s[i]? with
  | some c => items.any (ciMatch c)
  | none => false

/- Does `.` match at position `i` (any character but a newline)? -/
def dotTest (s : List Char) (i : Nat) : Bool :=
  match s[i]? with
  | some c => c ≠ Char.ofNat 10
  | none => false

def atWordBoundary (s : List Char) (i : Nat) : Bool :=
  let prev := if i = 0 then false else isWordAt s (i - 1)
  prev != isWordAt s i

/- All candidate match ends of `r` at position `i` of `s`, in Python
backtracking priority order (head = the end Python's engine commits to).
`fuel` bounds the recursion depth; `bigFuel` below always suffices for
the catalog's expressions. -/
def ends : Nat → RE → List Char → Nat → List Nat
  | 0, _, _, _ => []
  | _ + 1, .eps, _, i => [i]
  | _ + 1, .cls items, s, i => if clsTest items s i then [i + 1] else []
  | _ + 1, .dot, s, i => if dotTest s i then [i + 1] else []
  | _ + 1, .wordB, s, i => if atWordBoundary s i then [i] else []
  | f + 1, .alt a b, s, i => ends f a s i ++ ends f b s i
  | f + 1, .seq a b, s, i => (ends f a s i).flatMap (fun m => ends f b s m)
  | f + 1, .star a, s, i =>
      ((ends f a s i).filter (fun e => i < e)).flatMap
        (fun e => ends f (.star a) s e) ++ [i]
  | f + 1, .lstar a, s, i =>
      i :: ((ends f a s i).filter (fun e => i < e)).flatMap
        (fun e => ends f (.lstar a) s e)

def reSize : RE → Nat
  | .eps => 1
  | .cls _ => 1
  | .dot => 1
  | .wordB => 1
  | .alt a b => reSize a + reSize b + 1
  | .seq a b => reSize a + reSize b + 1
  | .star a => reSize a + 1
  | .lstar a => reSize a + 1

def bigFuel (r : RE) (s : List Char) : Nat :=
  (reSize r + 2) * (s.length + 2)

/- The end Python's engine reports for a match attempt at `i`, if any. -/
def firstEnd (r : RE) (s : List Char) (i : Nat) : Option Nat :=
  (ends (bigFuel r s) r s i).head?

/- `re.finditer`: leftmost non-overlapping matches, as (start, end). -/
def fIterGo (r : RE) (s : List Char) : Nat → Nat → List (Nat × Nat)
  | 0, _ => []
  | f + 1, i =>
      if s.length < i then []
      else
        match firstEnd r s i with
        | some e => (i, e) :: fIterGo r s f (if i < e then e else i + 1)
        | none => fIterGo r s f (i + 1)

def fIter (r : RE) (s : List Char) : List (Nat × Nat) :=
  fIterGo r s (s.length + 2) 0

/- `re.sub(r"\s+", " ", l)`: collapse every whitespace run to one space. -/
def collapseAux : Bool → List Char → List Char
  | _, [] => []
  | prevSpace, c :: rest =>
      if isPySpace c then
        if prevSpace then collapseAux true rest
        else ' ' :: collapseAux true rest
      else c :: collapseAux false rest

def collapseWS (l : List Char) : List Char :=
  collapseAux false l

/- Python `str.strip()`. -/
def dropTrail (l : List Char) : List Char :=
  (l.reverse.dropWhile isPySpace).reverse

def pyStrip (l : List Char) : List Char :=
  dropTrail (l.dropWhile isPySpace)

/- Python slice `t[a:b]` for 0 ≤ a, b ≤ len t. -/
def pySlice (t : List Char) (a b : Nat) : List Char :=
  (t.drop a).take (b - a)

/- `_safe_snippet`: context window of `ctx` code points each side,
clipped to the text, stripped, whitespace-collapsed. -/
def safe_snippet (t : List Char) (start stop : Nat) (ctx : Nat := 80) : List Char :=
  let s := start - ctx
  let e := min t.length (stop + ctx)
  collapseWS (pyStrip (pySlice t s e))

/- `PatternDef` of rules.py, with the regex already in AST form (the
compilation step of `_compile_categories` is the identity here: it only
fixes the IGNORECASE/MULTILINE flags, which the matcher bakes in). -/
structure PatternDef where
  name : String
  re : RE
  description : String
  checklist_ids : List String
deriving DecidableEq

/- Combinators mirroring Python regex syntax. -/

def chrR (c : Char) : RE := .cls [.ch c]

def lit (s : String) : RE :=
  (s.toList.map chrR).foldr .seq .eps

def alts : List RE → RE
  | [] => .cls []
  | [r] => r
  | r :: rs => .alt r (alts rs)

def catR : List RE → RE
  | [] => .eps
  | [r] => r
  | r :: rs => .seq r (catR rs)

/- Greedy `X?`. -/
def optR (r : RE) : RE := .alt r .eps

/- Greedy `X+`. -/
def plusR (r : RE) : RE := .seq r (.star r)

/- Lazy `X+?`. -/
def lplusR (r : RE) : RE := .seq r (.lstar r)

/- Greedy `X{0,n}`. -/
def repMax : Nat → RE → RE
  | 0, _ => .eps
  | n + 1, r => .alt (.seq r (repMax n r)) .eps

/- `X{n}`. -/
def repN : Nat → RE → RE
  | 0, _ => .eps
  | n + 1, r => .seq r (repN n r)

/- Greedy `X{m,n}`. -/
def repRange (m n : Nat) (r : RE) : RE := .seq (repN m r) (repMax (n - m) r)

/- Greedy `X{m,}`. -/
def repAtLeast (m : Nat) (r : RE) : RE := .seq (repN m r) (.star r)

/- Words separated by the `SP` building block. -/
def phrase : List String → RE
  | [] => .eps
  | [w] => lit w
  | w :: ws => .seq (lit w) (.seq (plusR (.cls [.ch ' ', .ch '\t', .ch (Char.ofNat 160)])) (phrase ws))

/- Regex building blocks of rules.py (lines 85-100). -/

/-- `SP = r"[ \t ]+"` -/
def SP : RE := plusR (.cls [.ch ' ', .ch '\t', .ch (Char.ofNat 160)])

def digitC : RE := .cls [.digit]

def wordC : RE := .cls [.word]

def wsC : RE := .cls [.space]

/-- `NUM = r"(?:\d{1,3}(?:[.,]\d{3})*|\d+)"` -/
def NUM : RE :=
  .alt (.seq (repRange 1 3 digitC) (.star (.seq (.cls [.ch '.', .ch ',']) (repN 3 digitC))))
       (plusR digitC)

/-- `YEARS = r"(?:anni|anno|annuale|annuali)"` -/
def YEARS : RE := alts [lit "anni", lit "anno", lit "annuale", lit "annuali"]

/-- `MONTHS = r"(?:mesi|mese|mensile|mensili)"` -/
def MONTHS : RE := alts [lit "mesi", lit "mese", lit "mensile", lit "mensili"]

/-- `DAYS = r"(?:giorni|giorno)"` -/
def DAYS : RE := alts [lit "giorni", lit "giorno"]

/-- `WEEKS = r"(?:settimane|settimana)"` -/
def WEEKS : RE := alts [lit "settimane", lit "settimana"]

/-- `DUR = rf"(?:{NUM}{SP}?(?:{YEARS}|{MONTHS}|{WEEKS}|{DAYS}))"`.
Note: textual interpolation makes `{SP}?` the lazy plus `[ \t ]+?`,
so at least one separator character is required, matched lazily. -/
def DUR : RE :=
  catR [NUM, lplusR (.cls [.ch ' ', .ch '\t', .ch (Char.ofNat 160)]),
        alts [YEARS, MONTHS, WEEKS, DAYS]]

/-- `EMAIL = r"[a-z0-9._%+\-]+@[a-z0-9.\-]+\.[a-z]{2,}"` -/
def EMAIL : RE :=
  catR [plusR (.cls [.range 'a' 'z', .range '0' '9', .ch '.', .ch '_', .ch '%', .ch '+', .ch '-']),
        chrR '@',
        plusR (.cls [.range 'a' 'z', .range '0' '9', .ch '.', .ch '-']),
        chrR '.',
        repAtLeast 2 (.cls [.range 'a' 'z'])]

/-- `PHONE = r"(?:\+?\d{1,3}[ \-]?)?(?:\(?\d{2,4}\)?[ \-]?)?\d{5,8}"` -/
def PHONE : RE :=
  catR [optR (catR [optR (chrR '+'), repRange 1 3 digitC, optR (.cls [.ch ' ', .ch '-'])]),
        optR (catR [optR (chrR '('), repRange 2 4 digitC, optR (chrR ')'), optR (.cls [.ch ' ', .ch '-'])]),
        repRange 5 8 digitC]

/- One element of the list returned by `scan_text` (a dict in Python,
with exactly these seven keys; `end` is a Lean keyword, hence `stop`). -/
structure MatchRecord where
  category : String
  pattern : String
  start : Nat
  stop : Nat
  snippet : List Char
  checklist_ids : List String
  description : String
deriving DecidableEq, Repr

def clsL (l : List Char) : RE := .cls (l.map .ch)

def apoS : String := String.mk [apo]

/- `CHECKLIST_HINTS` (rules.py lines 52-79), an insertion-ordered dict
modelled as an association list. -/
def CHECKLIST_HINTS : List (String × String) := [
  ("GDPR_13_1_a_titolare", "Titolare (identità/contatti)"),
  ("GDPR_13_1_a_rappresentanteUE", "Rappresentante UE (art. 27)"),
  ("GDPR_13_1_b_dpo", "DPO contatti"),
  ("GDPR_13_1_c_finalita", "Finalità del trattamento"),
  ("GDPR_6_1_base_giuridica", "Base giuridica (art. 6)"),
  ("GDPR_9_2_dati_particolari", "Dati particolari (art. 9(2))"),
  ("GDPR_13_1_d_interesse_legittimo", "Interesse legittimo specificato"),
  ("GDPR_14_1_d_categorie_dati", "Categorie di dati (art. 14(1)(d))"),
  ("GDPR_14_2_f_origine_dati", "Origine dei dati (art. 14(2)(f))"),
  ("GDPR_13_1_e_destinatari", "Destinatari"),
  ("GDPR_26_28_ruoli", "Ruoli privacy (26–28)"),
  ("GDPR_13_1_f_44_49_trasferimenti_extraUE", "Trasferimenti extra-UE"),
  ("GDPR_13_2_a_conservazione", "Periodo di conservazione"),
  ("GDPR_15_22_diritti", "Diritti interessato"),
  ("GDPR_12_1_modalita_esercizio", "Modalità di esercizio (art. 12)"),
  ("GDPR_13_2_d_reclamo_garante", "Reclamo al Garante"),
  ("CPI_2_quinquies_minori", "Consenso minori (14 anni)"),
  ("GARANTE_2021_cookie_informativa", "Cookie informativa"),
  ("GARANTE_2021_cookie_banner", "Cookie banner & preferenze"),
  ("GDPR_13_2_f_22_profilazione", "Profilazione/decisioni automatizzate"),
  ("GDPR_13_videosorveglianza", "Videosorveglianza"),
  ("GDPR_13_geolocalizzazione", "Geolocalizzazione"),
  ("STATUTO_4_CPI_114_lavoratori", "Lavoratori/controlli a distanza"),
  ("GDPR_12_1_linguaggio", "Linguaggio chiaro"),
  ("GARANTE_accessibilita_italiano", "Italiano/accessibilità"),
  ("GDPR_12_1_minori_linguaggio", "Linguaggio per minori")]

/- `CATEGORIES` (rules.py lines 106-262): category 1, IDENTITÀ & CONTATTI. -/
def identity_contacts : List PatternDef := [
  ⟨"titolare_block",
    phrase ["titolare", "del", "trattamento"],
    "Menzione del titolare", ["GDPR_13_1_a_titolare"]⟩,
  ⟨"denominazione_ragione_sociale",
    alts [.seq (lit "denominazion") (clsL ['e', 'a']),
          phrase ["ragione", "sociale"],
          .seq (lit "societ") (clsL ['a', 'à']),
          catR [chrR 'S', optR (chrR '.'), chrR 'p', optR (chrR '.'), chrR 'A', optR (chrR '.')],
          catR [chrR 'S', optR (chrR '.'), chrR 'r', optR (chrR '.'), chrR 'l', optR (chrR '.')]],
    "Denominazione/ragione sociale", ["GDPR_13_1_a_titolare"]⟩,
  ⟨"sede_legale",
    catR [lit "sede", SP, lit "legal", clsL ['e', 'a']],
    "Sede legale indicata", ["GDPR_13_1_a_titolare"]⟩,
  ⟨"indirizzo_postale",
    catR [alts [lit "via", lit "viale", lit "corso", lit "piazza", lit "largo", lit "strada"],
          plusR wsC,
          plusR (.cls [.range 'A' 'Z', .range 'a' 'z', .range 'À' 'Ö', .range 'Ø' 'ö',
                       .range 'ø' 'ÿ', .range '0' '9', .ch '.', .ch '-', .ch ' ']),
          chrR ',', .star wsC, repRange 1 4 digitC],
    "Indirizzo postale plausibile", ["GDPR_13_1_a_titolare"]⟩,
  ⟨"email_any", EMAIL,
    "Email presente", ["GDPR_13_1_a_titolare", "GDPR_12_1_modalita_esercizio"]⟩,
  ⟨"pec",
    .alt (catR [.wordB, lit "PEC", .wordB])
         (catR [lit "posta", SP, lit "elettronic", clsL ['a', 'e'], SP, lit "certificat", clsL ['a', 'e']]),
    "PEC presente", ["GDPR_12_1_modalita_esercizio"]⟩,
  ⟨"telefono", PHONE,
    "Numero di telefono plausibile", ["GDPR_13_1_a_titolare"]⟩,
  ⟨"dpo_kw",
    alts [phrase ["responsabile", "della", "protezione", "dei", "dati"],
          phrase ["data", "protection", "officer"],
          lit "DPO"],
    "Menzione DPO", ["GDPR_13_1_b_dpo"]⟩,
  ⟨"dpo_contatto",
    catR [alts [lit "DPO", phrase ["data", "protection", "officer"]],
          repMax 40 .dot, EMAIL],
    "Contatto email DPO", ["GDPR_13_1_b_dpo"]⟩,
  ⟨"rappresentante_ue",
    .alt (catR [lit "rappresentante", SP, lit "nell", .alt (chrR apo) (chrR 'a'),
                SP, lit "unione", SP, lit "europea"])
         (catR [lit "art", optR (chrR '.'), SP, lit "27"]),
    "Rappresentante UE (art. 27)", ["GDPR_13_1_a_rappresentanteUE"]⟩]

/- Category 2, FINALITÀ & BASI GIURIDICHE. -/
def purposes_bases : List PatternDef := [
  ⟨"finalita_kw",
    catR [.wordB, alts [.seq (lit "finalit") (clsL ['a', 'à']), lit "scopi", lit "purpose"], .wordB],
    "Parola chiave " ++ apoS ++ "finalità/scopi" ++ apoS, ["GDPR_13_1_c_finalita"]⟩,
  ⟨"base_giuridica_kw",
    .alt (catR [lit "base", SP, lit "giuridic", clsL ['a', 'e']])
         (catR [lit "ai", SP, lit "sensi", SP, lit "dell", optR (chrR apo), lit "art",
                optR (chrR '.'), SP, lit "6"]),
    "Rinvio all’art. 6", ["GDPR_6_1_base_giuridica"]⟩,
  ⟨"consenso_kw",
    .alt (catR [.wordB, lit "consens", clsL ['o', 'i'], .wordB])
         (catR [.wordB, lit "consent", .wordB]),
    "Base: consenso", ["GDPR_6_1_base_giuridica"]⟩,
  ⟨"contratto_kw",
    .alt (catR [.wordB, lit "contratt", plusR wordC, .wordB])
         (catR [.wordB, lit "necessario", SP, lit "all", optR (chrR apo), lit "esecuzione",
                SP, lit "del", SP, lit "contratto", .wordB]),
    "Base: contratto", ["GDPR_6_1_base_giuridica"]⟩,
  ⟨"obbligo_legale_kw",
    catR [.wordB, lit "obblig", clsL ['o', 'i'], SP, lit "legal", clsL ['e', 'i'], .wordB],
    "Base: obbligo legale", ["GDPR_6_1_base_giuridica"]⟩,
  ⟨"interesse_legittimo_kw",
    .alt (catR [lit "interesse", SP, lit "legittim", clsL ['o', 'a']])
         (phrase ["legitimate", "interest"]),
    "Base: interesse legittimo", ["GDPR_13_1_d_interesse_legittimo", "GDPR_6_1_base_giuridica"]⟩,
  ⟨"pubblico_vitale_kw",
    alts [catR [lit "interess", clsL ['o', 'i'], SP, lit "vital", clsL ['e', 'i']],
          catR [lit "compit", clsL ['o', 'i'], SP, lit "di", SP, lit "interesse", SP,
                lit "pubblic", clsL ['o', 'i']],
          catR [lit "pubblic", clsL ['o', 'i'], SP, lit "poteri"]],
    "Basi: vitale/pubblico", ["GDPR_6_1_base_giuridica"]⟩,
  ⟨"dati_particolari_kw",
    .alt (catR [lit "categor", plusR wordC, SP, lit "particolar", plusR wordC])
         (catR [lit "dati", SP,
                alts [.seq (lit "sensibil") (clsL ['i', 'e']),
                      .seq (lit "sanitar") (clsL ['i', 'e']),
                      .seq (lit "biometric") (clsL ['i', 'e']),
                      .seq (lit "genetic") (clsL ['i', 'e']),
                      phrase ["relativi", "alla", "salute"],
                      phrase ["vita", "sessuale"],
                      phrase ["orientamento", "sessuale"]]]),
    "Dati particolari", ["GDPR_9_2_dati_particolari"]⟩,
  ⟨"consenso_esplicito_kw",
    catR [lit "consenso", SP, lit "esplicit", clsL ['o', 'a']],
    "Consenso esplicito (utile per 9(2))", ["GDPR_9_2_dati_particolari"]⟩,
  ⟨"LIA_bilanciamento_kw",
    alts [catR [.wordB, lit "bilanciam", clsL ['e', 'o'], .star wordC],
          .seq (lit "LIA") .wordB,
          phrase ["legitimate", "interest", "assessment"]],
    "Rinvio a bilanciamento (LIA)", ["GDPR_13_1_d_interesse_legittimo"]⟩]

/- Category 3, CATEGORIE & ORIGINE (art. 14). -/
def categories_origin : List PatternDef := [
  ⟨"categorie_dati_kw",
    phrase ["categorie", "di", "dati"],
    "Categorie di dati", ["GDPR_14_1_d_categorie_dati"]⟩,
  ⟨"origine_dati_kw",
    catR [alts [lit "origine", lit "provenienza", lit "fonte"], SP,
          lit "de", optR (chrR 'i'), SP, lit "dati"],
    "Origine/provenienza dei dati", ["GDPR_14_2_f_origine_dati"]⟩,
  ⟨"raccolta_da_terzi",
    catR [lit "raccolt", clsL ['o', 'i'], SP, lit "da", SP, lit "terz", clsL ['i', 'e']],
    "Raccolta da terzi", ["GDPR_14_1_d_categorie_dati", "GDPR_14_2_f_origine_dati"]⟩]

/- Category 4, DESTINATARI & RUOLI (26-28). -/
def recipients_roles : List PatternDef := [
  ⟨"destinatari_kw",
    alts [lit "destinatari",
          phrase ["categorie", "di", "destinatari"],
          catR [lit "comunicat", optR (chrR 'i'), SP, lit "a"]],
    "Destinatari/categorie di destinatari", ["GDPR_13_1_e_destinatari"]⟩,
  ⟨"responsabile_28_kw",
    .alt (phrase ["responsabile", "del", "trattamento"])
         (catR [lit "accordo", SP, lit "ex", SP, lit "art", optR (chrR '.'), SP, lit "28"]),
    "Responsabile ex art. 28", ["GDPR_26_28_ruoli"]⟩,
  ⟨"contitolarita_26_kw",
    alts [catR [lit "contitolar", optR (chrR 'i'), optR (.seq (chrR 't') (clsL ['a', 'à'])),
                SP, lit "del", SP, lit "trattamento"],
          catR [lit "accordo", SP, lit "di", SP, lit "contitolarit", clsL ['a', 'à']],
          catR [lit "art", optR (chrR '.'), SP, lit "26"]],
    "Contitolarità art. 26", ["GDPR_26_28_ruoli"]⟩,
  ⟨"fornitori_cloud_kw",
    catR [alts [.seq (lit "fornitor") (clsL ['e', 'i']), lit "provider"], SP,
          alts [lit "cloud",
                catR [lit "serviz", clsL ['i', 'o'], chrR ' ', lit "digital", clsL ['i', 'e']]]],
    "Fornitori/Cloud (spesso responsabili)", ["GDPR_13_1_e_destinatari", "GDPR_26_28_ruoli"]⟩]

/- Category 5, TRASFERIMENTI EXTRA-UE (44-49). -/
def transfers : List PatternDef := [
  ⟨"trasferimenti_kw",
    alts [.seq (lit "trasferiment") (clsL ['i', 'o']),
          catR [lit "paes", clsL ['e', 'i'], SP, lit "terz", clsL ['i', 'o']],
          catR [lit "extra", optR (clsL ['-', ' ']), lit "UE"],
          catR [lit "al", SP, lit "di", SP, lit "fuori", SP, lit "dell",
                .alt (chrR apo) (chrR 'a'), SP, lit "UE"],
          lit "SEE"],
    "Trasferimenti verso paesi terzi/extra-UE/SEE", ["GDPR_13_1_f_44_49_trasferimenti_extraUE"]⟩,
  ⟨"SCC_kw",
    alts [phrase ["clausole", "contrattuali", "standard"],
          phrase ["standard", "contractual", "clauses"],
          lit "SCC"],
    "Clausole contrattuali standard", ["GDPR_13_1_f_44_49_trasferimenti_extraUE"]⟩,
  ⟨"adeguatezza_kw",
    .alt (phrase ["decisione", "di", "adeguatezza"]) (phrase ["adequacy", "decision"]),
    "Decisione di adeguatezza", ["GDPR_13_1_f_44_49_trasferimenti_extraUE"]⟩,
  ⟨"BCR_kw",
    .alt (phrase ["binding", "corporate", "rules"]) (lit "BCR"),
    "Binding Corporate Rules", ["GDPR_13_1_f_44_49_trasferimenti_extraUE"]⟩,
  ⟨"DPF_kw",
    catR [.alt (catR [lit "EU", optR (clsL ['-', ' ']), lit "US"])
               (catR [lit "UE", optR (clsL ['-', ' ']), lit "USA"]),
          repMax 20 .dot,
          .alt (phrase ["data", "privacy", "framework"]) (lit "DPF")],
    "EU-US Data Privacy Framework", ["GDPR_13_1_f_44_49_trasferimenti_extraUE"]⟩,
  ⟨"USA_kw",
    alts [catR [.wordB, lit "USA", .wordB],
          catR [.wordB, lit "Stati", SP, lit "Unit", clsL ['i', 'e'], .wordB],
          phrase ["United", "States"]],
    "Riferimenti a USA", ["GDPR_13_1_f_44_49_trasferimenti_extraUE"]⟩]

/- Category 6, CONSERVAZIONE (art. 13(2)(a)). -/
def retention : List PatternDef := [
  ⟨"durata_esplicita", DUR,
    "Durata esplicita (anni/mesi/settimane/giorni)", ["GDPR_13_2_a_conservazione"]⟩,
  ⟨"durata_massima",
    catR [alts [phrase ["non", "oltre"],
                phrase ["comunque", "non", "oltre"],
                phrase ["per", "un", "massimo", "di"]],
          plusR wsC, DUR],
    "Durata massima dichiarata", ["GDPR_13_2_a_conservazione"]⟩,
  ⟨"kw_conservazione",
    alts [.seq (lit "conservazion") (clsL ['e', 'a']),
          .seq (lit "durat") (clsL ['a', 'e']),
          lit "periodo", lit "termine"],
    "Parole chiave conservazione", ["GDPR_13_2_a_conservazione"]⟩,
  ⟨"vaghezza_tempo_necessario",
    catR [lit "per", SP, lit "il", SP, lit "tempo", SP,
          optR (.seq (lit "strettamente") SP), lit "necessario"],
    "Formula vaga: tempo necessario", ["GDPR_13_2_a_conservazione"]⟩,
  ⟨"vaghezza_limiti_legge",
    catR [lit "nei", SP, lit "limiti", SP, .alt (lit "previsti") (lit "stabiliti"),
          SP, lit "dalla", SP, lit "legge"],
    "Formula vaga: limiti di legge", ["GDPR_13_2_a_conservazione"]⟩,
  ⟨"vaghezza_finalita",
    catR [lit "fino", SP, lit "a", optR (chrR 'l'), SP, lit "raggiungimento", SP,
          lit "dell", optR (chrR 'e'), SP, lit "finalit", clsL ['a', 'à']],
    "Formula vaga: fino a finalità", ["GDPR_13_2_a_conservazione"]⟩,
  ⟨"vaghezza_periodo_necessario",
    phrase ["per", "il", "periodo", "necessario"],
    "Formula vaga: periodo necessario", ["GDPR_13_2_a_conservazione"]⟩,
  ⟨"vaghezza_tempo_previsto_norma",
    catR [lit "per", SP, lit "il", SP, lit "tempo", SP, lit "previsto", SP,
          lit "dalla", SP, .alt (lit "normativa") (lit "legge")],
    "Formula vaga: tempo previsto da norma", ["GDPR_13_2_a_conservazione"]⟩,
  ⟨"vaghezza_ragionevole",
    phrase ["per", "un", "periodo", "di", "tempo", "ragionevole"],
    "Formula vaga: periodo ragionevole", ["GDPR_13_2_a_conservazione"]⟩,
  ⟨"fine_conservazione_azioni",
    alts [.seq (lit "cancellazion") (clsL ['e', 'a']),
          .seq (lit "eliminazion") (clsL ['e', 'a']),
          .seq (lit "rimozion") (clsL ['e', 'a']),
          .seq (lit "distruzion") (clsL ['e', 'a']),
          .seq (lit "anonimizzazion") (clsL ['e', 'a']),
          .seq (lit "pseudonimizzazion") (clsL ['e', 'a'])],
    "Azioni di fine conservazione", ["GDPR_13_2_a_conservazione"]⟩]

/- Category 7, DIRITTI DELL'INTERESSATO (15-22, 12). -/
def rights : List PatternDef := [
  ⟨"diritti_kw",
    catR [.wordB, lit "diritt", clsL ['o', 'i'], .wordB],
    "Sezione diritti", ["GDPR_15_22_diritti"]⟩,
  ⟨"diritto_accesso",
    catR [.wordB, lit "accesso", .wordB],
    "Diritto di accesso", ["GDPR_15_22_diritti"]⟩,
  ⟨"diritto_rettifica",
    catR [.wordB, lit "rettifica", .wordB],
    "Diritto di rettifica", ["GDPR_15_22_diritti"]⟩,
  ⟨"diritto_cancellazione_oblio",
    catR [.wordB, .alt (lit "cancellazione") (lit "oblio"), .wordB],
    "Diritto cancellazione/oblio", ["GDPR_15_22_diritti"]⟩,
  ⟨"diritto_limitazione",
    catR [.wordB, lit "limitazion", clsL ['e', 'a'], .wordB],
    "Diritto di limitazione", ["GDPR_15_22_diritti"]⟩,
  ⟨"diritto_portabilita",
    catR [.wordB, lit "portabilit", clsL ['a', 'à'], .wordB],
    "Diritto alla portabilità", ["GDPR_15_22_diritti"]⟩,
  ⟨"diritto_opposizione",
    catR [.wordB, lit "opposizion", clsL ['e', 'a'], .wordB],
    "Diritto di opposizione", ["GDPR_15_22_diritti"]⟩,
  ⟨"diritto_revoca_consenso",
    catR [.wordB, lit "revoc", alts [lit "a", lit "are", lit "abile"], .wordB,
          .star .dot, .wordB, lit "consens", clsL ['o', 'i'], .wordB],
    "Revoca del consenso", ["GDPR_15_22_diritti"]⟩,
  ⟨"modalita_esercizio_frase",
    catR [alts [lit "come", .seq (lit "modalit") (clsL ['a', 'à']), lit "modo"], SP,
          .alt (lit "di") (lit "per"), SP, lit "esercit", plusR wordC, SP,
          lit "i", SP, lit "diritt", clsL ['o', 'i']],
    "Frase modalità di esercizio", ["GDPR_12_1_modalita_esercizio"]⟩,
  ⟨"canale_email", EMAIL,
    "Email contatti/diritti", ["GDPR_12_1_modalita_esercizio", "GDPR_13_1_a_titolare"]⟩,
  ⟨"canale_pec",
    .alt (catR [.wordB, lit "PEC", .wordB])
         (catR [lit "posta", SP, lit "elettronic", clsL ['a', 'e'], SP, lit "certificat", clsL ['a', 'e']]),
    "PEC", ["GDPR_12_1_modalita_esercizio"]⟩,
  ⟨"canale_modulo_form",
    catR [.wordB, alts [.seq (lit "modul") (clsL ['o', 'i']), lit "form",
                        phrase ["modulo", "online"]], .wordB],
    "Modulo/form", ["GDPR_12_1_modalita_esercizio"]⟩,
  ⟨"canale_postale",
    alts [phrase ["indirizzo", "postale"], lit "raccomandata", lit "lettera"],
    "Indirizzo postale", ["GDPR_12_1_modalita_esercizio"]⟩,
  ⟨"tempo_riscontro",
    .alt (catR [.alt (lit "30") (lit "trenta"), SP, lit "giorni"])
         (catR [.wordB, lit "un", SP, lit "mese", .wordB]),
    "Tempi di riscontro", ["GDPR_12_1_modalita_esercizio"]⟩,
  ⟨"reclamo_garante_kw",
    catR [phrase ["garante", "per", "la", "protezione", "dei", "dati"],
          optR (.seq (plusR wsC) (lit "personali"))],
    "Reclamo al Garante", ["GDPR_13_2_d_reclamo_garante"]⟩,
  ⟨"no_decisioni_automatizzate",
    .alt (catR [lit "no", SP, lit "decisioni", SP, lit "automatizzat", clsL ['a', 'e']])
         (phrase ["assenza", "di", "processi", "automatizzati"]),
    "Assenza decisioni automatizzate", ["GDPR_13_2_f_22_profilazione"]⟩,
  ⟨"profilazione_kw",
    alts [catR [lit "decision", optR (chrR 'i'), SP, optR (.seq (lit "unicamente") SP),
                lit "automatizzat", clsL ['a', 'e']],
          .seq (lit "profilazion") (clsL ['e', 'a']),
          lit "scoring"],
    "Profilazione/decisioni automatizzate", ["GDPR_13_2_f_22_profilazione"]⟩]

/- Category 8, COOKIE & TRACCIAMENTO (Provv. Garante 10/06/2021). -/
def cookies : List PatternDef := [
  ⟨"cookie_kw",
    alts [catR [.wordB, lit "cookie", .wordB],
          lit "pixel", lit "tracker", lit "SDK",
          .seq (lit "tag") (optR (.seq wsC (lit "manager")))],
    "Cookie/pixel/tracker", ["GARANTE_2021_cookie_informativa"]⟩,
  ⟨"cookie_policy_kw",
    .alt (phrase ["cookie", "policy"]) (phrase ["informativa", "cookie"]),
    "Pagina/Informativa cookie", ["GARANTE_2021_cookie_informativa"]⟩,
  ⟨"terze_parti_kw",
    catR [.wordB, lit "terz", optR (chrR 'e'), SP, lit "parti", .wordB],
    "Riferimento a terze parti", ["GARANTE_2021_cookie_informativa"]⟩,
  ⟨"durate_cookie", DUR,
    "Durate cookie (generico)", ["GARANTE_2021_cookie_informativa"]⟩,
  ⟨"tools_google_analytics",
    .alt (phrase ["google", "analytics"]) (lit "GA4"),
    "Google Analytics/GA4", ["GARANTE_2021_cookie_informativa"]⟩,
  ⟨"tools_meta_pixel",
    catR [.alt (lit "meta") (lit "facebook"), SP, lit "pixel"],
    "Meta/Facebook Pixel", ["GARANTE_2021_cookie_informativa"]⟩,
  ⟨"tools_hotjar",
    catR [.wordB, lit "hotjar", .wordB],
    "Hotjar", ["GARANTE_2021_cookie_informativa"]⟩,
  ⟨"tools_matomo",
    catR [.wordB, lit "matomo", .wordB],
    "Matomo", ["GARANTE_2021_cookie_informativa"]⟩,
  ⟨"tools_tag_manager",
    phrase ["tag", "manager"],
    "Tag Manager", ["GARANTE_2021_cookie_informativa"]⟩,
  ⟨"tools_consent_mgr",
    alts [lit "cookiebot", lit "iubenda", lit "onetrust"],
    "Consent manager", ["GARANTE_2021_cookie_informativa", "GARANTE_2021_cookie_banner"]⟩,
  ⟨"banner_kw",
    .alt (catR [.wordB, lit "banner", .wordB])
         (catR [.wordB, lit "pop", optR (clsL ['-', ' ']), lit "up", .wordB]),
    "Banner cookie", ["GARANTE_2021_cookie_banner"]⟩,
  ⟨"pulsante_accetta",
    .alt (catR [.wordB, lit "accetta", optR (lit "re"), .wordB])
         (catR [.wordB, lit "consenti", .wordB]),
    "Pulsante " ++ apoS ++ "Accetta/Consenti" ++ apoS, ["GARANTE_2021_cookie_banner"]⟩,
  ⟨"pulsante_rifiuta",
    alts [catR [.wordB, lit "rifiuta", optR (lit "re"), .wordB],
          catR [.wordB, lit "nega", .wordB],
          catR [.wordB, lit "rifiuta", SP, lit "tutto", .wordB]],
    "Pulsante " ++ apoS ++ "Rifiuta/Nega" ++ apoS, ["GARANTE_2021_cookie_banner"]⟩,
  ⟨"gestisci_preferenze",
    catR [alts [.seq (lit "gestisc") (clsL ['i', 'e']),
                .seq (lit "impostazion") (clsL ['e', 'i']),
                .seq (lit "preferenz") (clsL ['e', 'i'])],
          SP, optR (.alt (lit "dei") (lit "sui")), SP, lit "cookie"],
    "Gestione preferenze", ["GARANTE_2021_cookie_banner"]⟩,
  ⟨"solo_necessari",
    catR [.alt (lit "solo") (lit "accetta"), SP, optR (chrR 'i'), SP,
          lit "necessar", optR (clsL ['i', 'e'])],
    "Opzione " ++ apoS ++ "solo necessari" ++ apoS, ["GARANTE_2021_cookie_banner"]⟩,
  ⟨"categorie_cookie",
    alts [.seq (lit "tecnic") (clsL ['i', 'e']),
          .seq (lit "statistic") (clsL ['h', 'e']),
          lit "marketing", lit "profilazione", lit "preferenze"],
    "Categorie cookie", ["GARANTE_2021_cookie_informativa"]⟩]

/- Category 9, MINORI (CPI 2-quinquies). -/
def minors : List PatternDef := [
  ⟨"minori_kw",
    alts [catR [.wordB, lit "minor", clsL ['e', 'i'], .wordB],
          catR [.wordB, lit "et", clsL ['a', 'à'], .wordB],
          catR [lit "under", optR wsC, repRange 1 2 digitC]],
    "Menzione minori/età", ["CPI_2_quinquies_minori", "GDPR_12_1_minori_linguaggio"]⟩,
  ⟨"eta_anni",
    catR [.wordB, repRange 1 2 digitC, SP, lit "anni", .wordB],
    "Età indicata (anni)", ["CPI_2_quinquies_minori"]⟩,
  ⟨"consenso_genitori",
    alts [.seq (lit "genitor") (clsL ['i', 'e']),
          .seq (lit "tutor") (clsL ['e', 'i']),
          catR [lit "responsabilit", clsL ['a', 'à'], SP, lit "genitorial", clsL ['e', 'a']]],
    "Consenso genitori/tutori", ["CPI_2_quinquies_minori"]⟩]

/- Category 10, TRATTAMENTI PARTICOLARI. -/
def special_processing : List PatternDef := [
  ⟨"profilazione_kw",
    alts [.seq (lit "profilazion") (clsL ['e', 'a']),
          catR [lit "decision", optR (chrR 'i'), SP, optR (.seq (lit "unicamente") SP),
                lit "automatizzat", clsL ['a', 'e']],
          lit "scoring"],
    "Profilazione/automatizzate", ["GDPR_13_2_f_22_profilazione"]⟩,
  ⟨"intervento_umano_kw",
    alts [phrase ["intervento", "umano"],
          phrase ["diritto", "di", "contestazione"],
          .seq (lit "spiegazion") (clsL ['e', 'i'])],
    "Diritti contro decisioni automatizzate", ["GDPR_13_2_f_22_profilazione"]⟩,
  ⟨"videosorveglianza_kw",
    alts [.seq (lit "videosorveglianz") (clsL ['a', 'e']),
          lit "CCTV",
          .seq (lit "telecamer") (clsL ['a', 'e'])],
    "Videosorveglianza", ["GDPR_13_videosorveglianza"]⟩,
  ⟨"cartelli_kw",
    .alt (catR [.wordB, lit "cartell", clsL ['o', 'i'], .wordB])
         (catR [lit "informazion", clsL ['e', 'i'], SP, lit "sintetic", clsL ['h', 'e']]),
    "Cartelli informativi", ["GDPR_13_videosorveglianza"]⟩,
  ⟨"geolocalizzazione_kw",
    alts [.seq (lit "geolocalizzazion") (clsL ['e', 'a']),
          .seq (lit "posizion") (clsL ['e', 'a']),
          lit "GPS", lit "geofencing", lit "tracking"],
    "Geolocalizzazione/posizione", ["GDPR_13_geolocalizzazione"]⟩,
  ⟨"parametri_geo_kw",
    alts [lit "frequenza", lit "accuratezza", lit "precisione", lit "intervalli", lit "sampling"],
    "Parametri tecnici geoloc.", ["GDPR_13_geolocalizzazione"]⟩]

/- Category 11, LAVORATORI / CONTROLLI A DISTANZA. -/
def workers_controls : List PatternDef := [
  ⟨"statuto_kw",
    alts [phrase ["controlli", "a", "distanza"],
          phrase ["statuto", "dei", "lavoratori"],
          catR [lit "art", optR (chrR '.'), SP, lit "4", SP, lit "L", optR (chrR '.'),
                SP, lit "300/1970"]],
    "Controlli a distanza/statuto", ["STATUTO_4_CPI_114_lavoratori"]⟩,
  ⟨"accordo_autorizzazione_kw",
    .alt (catR [lit "accordo", SP, lit "sindacal", clsL ['e', 'a']])
         (phrase ["autorizzazione", "ispettorato"]),
    "Accordo sindacale/autorizzazione", ["STATUTO_4_CPI_114_lavoratori"]⟩,
  ⟨"strumenti_lavoro_kw",
    alts [catR [lit "strument", clsL ['i', 'o'], SP, lit "di", SP, lit "lavoro"],
          lit "badge",
          .seq (lit "dispositiv") (clsL ['i', 'o']),
          phrase ["software", "di", "monitoraggio"]],
    "Strumenti di controllo", ["STATUTO_4_CPI_114_lavoratori"]⟩]

/- Category 12, LINGUAGGIO & ACCESSIBILITÀ. -/
def language_accessibility : List PatternDef := [
  ⟨"linguaggio_chiaro_kw",
    alts [phrase ["in", "modo", "chiaro"],
          lit "trasparente", lit "intelligibile", lit "semplice"],
    "Linguaggio chiaro", ["GDPR_12_1_linguaggio", "GARANTE_accessibilita_italiano"]⟩,
  ⟨"accessibilita_kw",
    alts [.seq (lit "accessibilit") (clsL ['a', 'à']),
          .seq (lit "leggibilit") (clsL ['a', 'à']),
          .seq (lit "usabilit") (clsL ['a', 'à']),
          lit "WCAG", lit "accessibile"],
    "Accessibilità/usabilità", ["GARANTE_accessibilita_italiano"]⟩,
  ⟨"struttura_aiuto_kw",
    alts [lit "indice", lit "sommario", lit "titoli", lit "faq", lit "glossario"],
    "Strutture di aiuto alla lettura", ["GARANTE_accessibilita_italiano"]⟩,
  ⟨"linguaggio_minori_kw",
    alts [catR [.alt (lit "versione") (lit "sezione"), SP, lit "per", SP, lit "minori"],
          lit "icone",
          phrase ["esempi", "semplici"]],
    "Adattamento per minori", ["GDPR_12_1_minori_linguaggio"]⟩]

/- `CATEGORIES` (rules.py lines 106-262): insertion-ordered dict from
category name to its pattern definitions, as an association list. -/
def CATEGORIES : List (String × List PatternDef) := [
  ("identity_contacts", identity_contacts),
  ("purposes_bases", purposes_bases),
  ("categories_origin", categories_origin),
  ("recipients_roles", recipients_roles),
  ("transfers", transfers),
  ("retention", retention),
  ("rights", rights),
  ("cookies", cookies),
  ("minors", minors),
  ("special_processing", special_processing),
  ("workers_controls", workers_controls),
  ("language_accessibility", language_accessibility)]

/- `selected = COMPILED if not categories else {k:v for k,v in
COMPILED.items() if k in categories}` (rules.py line 289): Python tests
truthiness, so both `None` and the empty list select the whole catalog;
a dict comprehension over `COMPILED.items()` keeps catalog order. -/
def selectCats (categories : Option (List String)) : List (String × List PatternDef) :=
  match categories with
  | none => CATEGORIES
  | some cs => if cs = [] then CATEGORIES else CATEGORIES.filter (fun kv => cs.contains kv.1)

/- The records one compiled pattern contributes (the inner loop of
`scan_text`, rules.py lines 291-301). -/
def patRecords (text : List Char) (cat : String) (p : PatternDef) : List MatchRecord :=
  (fIter p.re text).map (fun m =>
    { category := cat
      pattern := p.name
      start := m.1
      stop := m.2
      snippet := safe_snippet text m.1 m.2 80
      checklist_ids := p.checklist_ids
      description := p.description })

/- `scan_text` (rules.py lines 287-302). -/
def scan_text (text : List Char) (categories : Option (List String) := none) :
    List MatchRecord :=
  (selectCats categories).flatMap (fun kv => kv.2.flatMap (patRecords text kv.1))

/- `buckets.setdefault(cid, []); if snippet not in buckets[cid]:
buckets[cid].append(snippet)` over an insertion-ordered dict. -/
def addSnippet (buckets : List (String × List (List Char))) (cid : String)
    (snip : List Char) : List (String × List (List Char)) :=
  match buckets.lookup cid with
  | none => buckets ++ [(cid, [snip])]
  | some l =>
      if snip ∈ l then buckets
      else buckets.map (fun kv => if kv.1 = cid then (kv.1, kv.2 ++ [snip]) else kv)

def addRecord (buckets : List (String × List (List Char))) (h : MatchRecord) :
    List (String × List (List Char)) :=
  h.checklist_ids.foldl (fun b cid => addSnippet b cid h.snippet) buckets

/- `evidence_by_checklist` (rules.py lines 304-312). -/
def evidence_by_checklist (text : List Char) : List (String × List (List Char)) :=
  (scan_text text none).foldl addRecord []

/- Matcher invariants. -/

theorem clsTest_lt_length {items : List CI} {s : List Char} {i : Nat}
    (h : clsTest items s i = true) : i < s.length := by
  unfold clsTest at h
  rcases hc : s[i]? with _ | c
  · rw [hc] at h; simp at h
  · exact (List.getElem?_eq_some.mp hc).1

theorem dotTest_lt_length {s : List Char} {i : Nat}
    (h : dotTest s i = true) : i < s.length := by
  unfold dotTest at h
  rcases hc : s[i]? with _ | c
  · rw [hc] at h; simp at h
  · exact (List.getElem?_eq_some.mp hc).1

/- Every candidate end lies at or after the start position. -/
theorem ends_ge {s : List Char} :
    ∀ (f : Nat) (r : RE) (i e : Nat), e ∈ ends f r s i → i ≤ e := by
  intro f
  induction f with
  | zero => intro r i e h; simp [ends] at h
  | succ f ih =>
    intro r i e h
    cases r with
    | eps => simp [ends] at h; omega
    | cls items =>
      simp only [ends] at h
      split at h <;> simp at h
      omega
    | dot =>
      simp only [ends] at h
      split at h <;> simp at h
      omega
    | wordB =>
      simp only [ends] at h
      split at h <;> simp at h
      omega
    | alt a b =>
      rcases List.mem_append.mp h with h | h
      · exact ih a i e h
      · exact ih b i e h
    | seq a b =>
      simp only [ends, List.mem_flatMap] at h
      rcases h with ⟨m, hm, he⟩
      exact le_trans (ih a i m hm) (ih b m e he)
    | star a =>
      simp only [ends, List.mem_append, List.mem_flatMap, List.mem_filter,
        List.mem_singleton, decide_eq_true_eq] at h
      rcases h with ⟨x, ⟨_, hxi⟩, he⟩ | h
      · have := ih (.star a) x e he
        omega
      · omega
    | lstar a =>
      simp only [ends, List.mem_cons, List.mem_flatMap, List.mem_filter,
        decide_eq_true_eq] at h
      rcases h with h | ⟨x, ⟨_, hxi⟩, he⟩
      · omega
      · have := ih (.lstar a) x e he
        omega

/- Candidate ends never run past the end of the text. -/
theorem ends_le_length {s : List Char} :
    ∀ (f : Nat) (r : RE) (i e : Nat), i ≤ s.length → e ∈ ends f r s i → e ≤ s.length := by
  intro f
  induction f with
  | zero => intro r i e _ h; simp [ends] at h
  | succ f ih =>
    intro r i e hi h
    cases r with
    | eps => simp [ends] at h; omega
    | cls items =>
      simp only [ends] at h
      split at h <;> simp at h
      rename_i ht
      have := clsTest_lt_length ht
      omega
    | dot =>
      simp only [ends] at h
      split at h <;> simp at h
      rename_i ht
      have := dotTest_lt_length ht
      omega
    | wordB =>
      simp only [ends] at h
      split at h <;> simp at h
      omega
    | alt a b =>
      rcases List.mem_append.mp h with h | h
      · exact ih a i e hi h
      · exact ih b i e hi h
    | seq a b =>
      simp only [ends, List.mem_flatMap] at h
      rcases h with ⟨m, hm, he⟩
      exact ih b m e (ih a i m hi hm) he
    | star a =>
      simp only [ends, List.mem_append, List.mem_flatMap, List.mem_filter,
        List.mem_singleton, decide_eq_true_eq] at h
      rcases h with ⟨x, ⟨hx, _⟩, he⟩ | h
      · exact ih (.star a) x e (ih a i x hi hx) he
      · omega
    | lstar a =>
      simp only [ends, List.mem_cons, List.mem_flatMap, List.mem_filter,
        decide_eq_true_eq] at h
      rcases h with h | ⟨x, ⟨hx, _⟩, he⟩
      · omega
      · exact ih (.lstar a) x e (ih a i x hi hx) he

/- A pattern that cannot match the empty string consumes at least one
character: every reported match is non-empty. -/
theorem ends_pos {s : List Char} :
    ∀ (f : Nat) (r : RE) (i e : Nat), nullable r = false → e ∈ ends f r s i → i < e := by
  intro f
  induction f with
  | zero => intro r i e _ h; simp [ends] at h
  | succ f ih =>
    intro r i e hn h
    cases r with
    | eps => simp [nullable] at hn
    | cls items =>
      simp only [ends] at h
      split at h <;> simp at h
      omega
    | dot =>
      simp only [ends] at h
      split at h <;> simp at h
      omega
    | wordB => simp [nullable] at hn
    | alt a b =>
      rw [nullable, Bool.or_eq_false_iff] at hn
      rcases List.mem_append.mp h with h | h
      · exact ih a i e hn.1 h
      · exact ih b i e hn.2 h
    | seq a b =>
      rw [nullable, Bool.and_eq_false_iff] at hn
      simp only [ends, List.mem_flatMap] at h
      rcases h with ⟨m, hm, he⟩
      rcases hn with hn | hn
      · exact lt_of_lt_of_le (ih a i m hn hm) (ends_ge f b m e he)
      · exact lt_of_le_of_lt (ends_ge f a i m hm) (ih b m e hn he)
    | star a => simp [nullable] at hn
    | lstar a => simp [nullable] at hn

/- Shape of every match `finditer` reports. -/
theorem fIterGo_spec {r : RE} {s : List Char} :
    ∀ (f i : Nat) (p : Nat × Nat), p ∈ fIterGo r s f i →
      i ≤ p.1 ∧ p.1 ≤ s.length ∧ p.2 ∈ ends (bigFuel r s) r s p.1 := by
  intro f
  induction f with
  | zero => intro i p h; simp [fIterGo] at h
  | succ f ih =>
    intro i p h
    simp only [fIterGo] at h
    split at h
    · simp at h
    · rename_i hlen
      rcases hfe : firstEnd r s i with _ | e
      · rw [hfe] at h
        have := ih (i + 1) p h
        exact ⟨by omega, this.2.1, this.2.2⟩
      · rw [hfe] at h
        rcases List.mem_cons.mp h with rfl | h
        · refine ⟨le_refl _, by omega, ?_⟩
          unfold firstEnd at hfe
          exact List.mem_of_mem_head? (Option.mem_def.mpr hfe)
        · have := ih _ p h
          refine ⟨?_, this.2.1, this.2.2⟩
          have h1 := this.1
          by_cases hie : i < e
          · rw [if_pos hie] at h1; omega
          · rw [if_neg hie] at h1; omega

/- `finditer` reports matches at strictly increasing start offsets. -/
theorem fIterGo_pairwise {r : RE} {s : List Char} :
    ∀ (f i : Nat), List.Pairwise (fun a b : Nat × Nat => a.1 < b.1) (fIterGo r s f i) := by
  intro f
  induction f with
  | zero => intro i; simp [fIterGo]
  | succ f ih =>
    intro i
    simp only [fIterGo]
    split
    · exact List.Pairwise.nil
    · rcases hfe : firstEnd r s i with _ | e
      · exact ih (i + 1)
      · refine List.pairwise_cons.mpr ⟨?_, ih _⟩
        intro q hq
        have h1 := (fIterGo_spec f _ q hq).1
        by_cases hie : i < e
        · rw [if_pos hie] at h1; omega
        · rw [if_neg hie] at h1; omega

/- Facts about the catalog, established by computation. -/

/- No pattern of the catalog can match the empty string. -/
theorem catalog_not_nullable :
    ∀ kv ∈ CATEGORIES, ∀ p ∈ kv.2, nullable p.re = false := by decide

theorem selectCats_sublist (cats : Option (List String)) :
    (selectCats cats).Sublist CATEGORIES := by
  cases cats with
  | none => exact List.Sublist.refl _
  | some cs =>
    simp only [selectCats]
    split
    · exact List.Sublist.refl _
    · exact List.filter_sublist _

theorem mem_selectCats {cats : Option (List String)} {kv : String × List PatternDef}
    (h : kv ∈ selectCats cats) : kv ∈ CATEGORIES :=
  (selectCats_sublist cats).subset h

/- Shape of a record contributed by one pattern. -/
theorem mem_patRecords {t : List Char} {c : String} {p : PatternDef} {r : MatchRecord}
    (h : r ∈ patRecords t c p) :
    r.category = c ∧ r.pattern = p.name ∧ r.checklist_ids = p.checklist_ids ∧
      r.snippet = safe_snippet t r.start r.stop 80 ∧ (r.start, r.stop) ∈ fIter p.re t := by
  simp only [patRecords, List.mem_map] at h
  rcases h with ⟨m, hm, rfl⟩
  exact ⟨rfl, rfl, rfl, rfl, hm⟩

/-- C3: for every input text and every category selection, every
MatchRecord returned by `scan_text` satisfies 0 ≤ start < end ≤ len(text)
(half-open interval), so text[start:end] is non-empty; in particular no
pattern of the catalog ever produces an empty-width match. -/
theorem C3_scan_span_valid (t : List Char) (cats : Option (List String))
    (r : MatchRecord) (hr : r ∈ scan_text t cats) :
    r.start < r.stop ∧ r.stop ≤ t.length ∧ pySlice t r.start r.stop ≠ [] := by
  simp only [scan_text, List.mem_flatMap] at hr
  rcases hr with ⟨kv, hkv, p, hp, hr⟩
  have hmem := mem_patRecords hr
  have hnn := catalog_not_nullable kv (mem_selectCats hkv) p hp
  have hspec := fIterGo_spec _ _ _ hmem.2.2.2.2
  have h1 : r.start < r.stop := ends_pos _ _ _ _ hnn hspec.2.2
  have h2 : r.stop ≤ t.length := ends_le_length _ _ _ _ hspec.2.1 hspec.2.2
  refine ⟨h1, h2, ?_⟩
  have hlen : 0 < (pySlice t r.start r.stop).length := by
    simp only [pySlice, List.length_take, List.length_drop]
    omega
  exact List.length_pos.mp hlen

/- The single-sentence retention example from the repository's test
suite, shared by several concrete instantiations below. -/
def testTxt : List Char :=
  "I dati saranno conservati per un massimo di 10 anni e poi cancellazione.".toList

/- The record the `durata_massima` pattern produces on `testTxt` (its
context window covers the whole sentence, which needs no whitespace
normalization, so the snippet is the sentence itself). -/
def recDurataMassima : MatchRecord :=
  { category := "retention", pattern := "durata_massima", start := 26, stop := 51,
    snippet := testTxt, checklist_ids := ["GDPR_13_2_a_conservazione"],
    description := "Durata massima dichiarata" }

set_option maxRecDepth 100000 in
/-- Witness for C3 at a concrete record of a concrete scan. -/
theorem C3_scan_span_valid_witness :
    recDurataMassima ∈ scan_text testTxt (some ["retention"]) ∧
      (recDurataMassima.start < recDurataMassima.stop ∧
       recDurataMassima.stop ≤ testTxt.length ∧
       pySlice testTxt recDurataMassima.start recDurataMassima.stop ≠ []) :=
  ⟨by decide, C3_scan_span_valid testTxt (some ["retention"]) recDurataMassima (by decide)⟩

def scopiTxt : List Char := "scopi".toList

set_option maxRecDepth 100000 in
/-- Counterexample to C1: with an explicitly empty category list the scan
of a concrete text is NOT empty — the falsy guard `if not categories`
selects the whole catalog, and "scopi" matches the `finalita_kw`
pattern. -/
theorem C1_empty_selection_counterexample :
    scan_text scopiTxt (some []) ≠ [] := by decide

/-- C1 (amended): calling scan with an explicitly empty category list
returns the same records as calling it with the selection omitted (all
categories are scanned); it returns zero records only when the full scan
does. -/
theorem C1_empty_selection_amended (t : List Char) :
    scan_text t (some []) = scan_text t none := rfl

/-- C2: `scan_text(text, [])` returns exactly the same sequence of
records as `scan_text(text, None)`: the guard tests truthiness of the
categories argument, so both falsy values of the optional argument
select the full catalog. -/
theorem C2_falsy_selects_all (t : List Char) :
    scan_text t (some []) = scan_text t none ∧
      selectCats (some []) = CATEGORIES ∧ selectCats none = CATEGORIES :=
  ⟨rfl, rfl, rfl⟩

set_option maxRecDepth 1000000 in
/-- C8: scanning the retention test sentence with the selection
restricted to `retention` yields a `durata_massima` (maximum duration
declared) record and a `fine_conservazione_azioni` (end-of-retention
action) record whose matched span is exactly "cancellazione"; both carry
`GDPR_13_2_a_conservazione`. -/
theorem C8_retention_example :
    (∃ r ∈ scan_text testTxt (some ["retention"]), r.pattern = "durata_massima" ∧
        "GDPR_13_2_a_conservazione" ∈ r.checklist_ids) ∧
    (∃ r ∈ scan_text testTxt (some ["retention"]), r.pattern = "fine_conservazione_azioni" ∧
        pySlice testTxt r.start r.stop = "cancellazione".toList ∧
        "GDPR_13_2_a_conservazione" ∈ r.checklist_ids) := by decide

set_option maxRecDepth 100000 in
/-- Counterexample to C9: when the selection consists ONLY of an unknown
category name, removing that name empties the list, which is falsy and
selects the whole catalog — so the two scans differ on a text with any
match at all. -/
theorem C9_unknown_category_counterexample :
    scan_text scopiTxt (some ["bogus"]) ≠
      scan_text scopiTxt (some (["bogus"].erase "bogus")) := by decide

/-- C9 (amended): an unknown category name contributes no records and
raises no error, and the scan equals the scan with the unknown name
removed, PROVIDED the remaining selection is non-empty (removing the
last name would make the argument falsy and select every category). -/
theorem C9_unknown_category_amended (t : List Char) (cats : List String) (u : String)
    (hu : ∀ kv ∈ CATEGORIES, kv.1 ≠ u) (hne : cats.erase u ≠ []) :
    scan_text t (some cats) = scan_text t (some (cats.erase u)) := by
  have hcats : cats ≠ [] := by
    intro h
    rw [h] at hne
    simp [List.erase] at hne
  have hsel : selectCats (some cats) = selectCats (some (cats.erase u)) := by
    simp only [selectCats, if_neg hcats, if_neg hne]
    apply List.filter_congr
    intro kv hkv
    have hne' : kv.1 ≠ u := hu kv hkv
    have hiff : kv.1 ∈ cats.erase u ↔ kv.1 ∈ cats := List.mem_erase_of_ne hne'
    refine Bool.eq_iff_iff.mpr ?_
    constructor
    · intro hx
      exact List.elem_iff.mpr (hiff.mpr (List.elem_iff.mp hx))
    · intro hx
      exact List.elem_iff.mpr (hiff.mp (List.elem_iff.mp hx))
  simp only [scan_text, hsel]

set_option maxRecDepth 100000 in
/-- Witness for C9 (amended): dropping the unknown name "bogus" from a
selection that also names `retention` leaves the scan unchanged. -/
theorem C9_unknown_category_amended_witness :
    (∀ kv ∈ CATEGORIES, kv.1 ≠ "bogus") ∧ ["bogus", "retention"].erase "bogus" ≠ [] ∧
      scan_text scopiTxt (some ["bogus", "retention"]) =
        scan_text scopiTxt (some (["bogus", "retention"].erase "bogus")) :=
  ⟨by decide, by decide,
    C9_unknown_category_amended scopiTxt ["bogus", "retention"] "bogus" (by decide) (by decide)⟩

/-- C10: every checklist id referenced in the `checklist_ids` list of any
PatternDef in any category of the catalog also appears as a key of
`CHECKLIST_HINTS`. -/
theorem C10_checklist_ids_in_hints :
    ∀ kv ∈ CATEGORIES, ∀ p ∈ kv.2, ∀ cid ∈ p.checklist_ids,
      cid ∈ CHECKLIST_HINTS.map Prod.fst := by decide

def patDurataEsplicita : PatternDef :=
  ⟨"durata_esplicita", DUR, "Durata esplicita (anni/mesi/settimane/giorni)",
    ["GDPR_13_2_a_conservazione"]⟩

set_option maxRecDepth 100000 in
/-- Witness for C10 at a concrete pattern and checklist id. -/
theorem C10_checklist_ids_in_hints_witness :
    ("retention", retention) ∈ CATEGORIES ∧ patDurataEsplicita ∈ retention ∧
      "GDPR_13_2_a_conservazione" ∈ patDurataEsplicita.checklist_ids ∧
      "GDPR_13_2_a_conservazione" ∈ CHECKLIST_HINTS.map Prod.fst :=
  ⟨by decide, by decide, by decide,
    C10_checklist_ids_in_hints ("retention", retention) (by decide) patDurataEsplicita
      (by decide) "GDPR_13_2_a_conservazione" (by decide)⟩

/- Properties of whitespace collapsing and stripping. -/

/- Every whitespace character surviving the collapse is the plain space
the substitution inserted. -/
theorem collapseAux_space_is_space :
    ∀ (l : List Char) (b : Bool) (c : Char),
      c ∈ collapseAux b l → isPySpace c = true → c = ' ' := by
  intro l
  induction l with
  | nil => intro b c h _; simp [collapseAux] at h
  | cons a rest ih =>
    intro b c h hsp
    simp only [collapseAux] at h
    split at h
    · split at h
      · exact ih true c h hsp
      · rcases List.mem_cons.mp h with rfl | h
        · rfl
        · exact ih true c h hsp
    · rcases List.mem_cons.mp h with rfl | h
      · rename_i ha; exact absurd hsp ha
      · exact ih false c h hsp

/- After the collapse no two adjacent characters are both whitespace,
and with the flag set the output cannot start with whitespace. -/
theorem collapseAux_chain_head :
    ∀ (l : List Char) (b : Bool),
      List.Chain' (fun x y => ¬(isPySpace x = true ∧ isPySpace y = true)) (collapseAux b l) ∧
      (b = true → ∀ c, (collapseAux b l).head? = some c → isPySpace c = false) := by
  intro l
  induction l with
  | nil =>
    intro b
    refine ⟨by simp [collapseAux], ?_⟩
    intro _ c h
    simp [collapseAux] at h
  | cons a rest ih =>
    intro b
    simp only [collapseAux]
    split
    · rename_i ha
      split
    -- run was already open: skip the character
      · exact ⟨(ih true).1, fun _ => (ih true).2 rfl⟩
    -- emit the single replacement space
      · refine ⟨?_, ?_⟩
        · refine List.chain'_cons'.mpr ⟨?_, (ih true).1⟩
          intro y hy
          have hys := (ih true).2 rfl y (Option.mem_def.mp hy)
          intro hcon
          rw [hys] at hcon
          exact absurd hcon.2 (by simp)
        · rename_i hb
          intro hb'
          exact absurd hb' hb
    · rename_i ha
      refine ⟨?_, ?_⟩
      · refine List.chain'_cons'.mpr ⟨?_, (ih false).1⟩
        intro y _ hcon
        exact ha hcon.1
      · intro _ c hc
        rw [List.head?_cons, Option.some_inj] at hc
        subst hc
        exact Bool.eq_false_iff.mpr ha

theorem collapseAux_length_le :
    ∀ (l : List Char) (b : Bool), (collapseAux b l).length ≤ l.length := by
  intro l
  induction l with
  | nil => intro b; simp [collapseAux]
  | cons a rest ih =>
    intro b
    simp only [collapseAux]
    split
    · split
      · have := ih true; simp only [List.length_cons]; omega
      · simp only [List.length_cons]; exact Nat.succ_le_succ (ih true)
    · simp only [List.length_cons]; exact Nat.succ_le_succ (ih false)

theorem getLast?_cons_ne_nil {α : Type} {x : α} {l : List α} (h : l ≠ []) :
    (x :: l).getLast? = l.getLast? := by
  rcases List.exists_cons_of_ne_nil h with ⟨y, ys, rfl⟩
  exact List.getLast?_cons_cons

/- A non-whitespace final character survives the collapse as the final
character. -/
theorem collapseAux_getLast? :
    ∀ (l : List Char) (b : Bool) (c : Char), l.getLast? = some c → isPySpace c = false →
      (collapseAux b l).getLast? = some c := by
  intro l
  induction l with
  | nil => intro b c h _; simp at h
  | cons a rest ih =>
    intro b c hl hsp
    cases rest with
    | nil =>
      simp only [List.getLast?_cons, List.getLast?_nil, Option.getD_none,
        Option.some_inj] at hl
      subst hl
      simp only [collapseAux]
      split
      · rename_i ha; rw [ha] at hsp; exact absurd hsp (by simp)
      · simp [collapseAux]
    | cons a2 rest2 =>
      have hl' : (a2 :: rest2).getLast? = some c := by
        rw [← List.getLast?_cons_cons (a := a)]; exact hl
      have hrec : ∀ b', (collapseAux b' (a2 :: rest2)).getLast? = some c :=
        fun b' => ih b' c hl' hsp
      have hne : ∀ b', collapseAux b' (a2 :: rest2) ≠ [] := by
        intro b' hcon
        have := hrec b'
        rw [hcon] at this
        simp at this
      have hstep : collapseAux b (a :: a2 :: rest2) =
          if isPySpace a then
            (if b then collapseAux true (a2 :: rest2)
             else ' ' :: collapseAux true (a2 :: rest2))
          else a :: collapseAux false (a2 :: rest2) := rfl
      rw [hstep]
      split
      · split
        · exact hrec true
        · rw [getLast?_cons_ne_nil (hne true)]; exact hrec true
      · rw [getLast?_cons_ne_nil (hne false)]; exact hrec false

theorem dropWhile_head?_false {p : Char → Bool} :
    ∀ (l : List Char) (c : Char), (l.dropWhile p).head? = some c → p c = false := by
  intro l
  induction l with
  | nil => intro c h; simp at h
  | cons a rest ih =>
    intro c h
    rw [List.dropWhile_cons] at h
    split at h
    · exact ih c h
    · rw [List.head?_cons, Option.some_inj] at h
      subst h
      rename_i ha
      exact Bool.eq_false_iff.mpr ha

/- The stripped list is a prefix of its `dropWhile` stage. -/
theorem pyStrip_prefix (l : List Char) : pyStrip l <+: l.dropWhile isPySpace := by
  unfold pyStrip dropTrail
  rw [← List.reverse_suffix, List.reverse_reverse]
  exact List.dropWhile_suffix _

theorem pyStrip_head? (l : List Char) (c : Char) (h : (pyStrip l).head? = some c) :
    isPySpace c = false := by
  rcases pyStrip_prefix l with ⟨tail, ht⟩
  have hh : (l.dropWhile isPySpace).head? = some c := by
    rw [← ht, List.head?_append, h]
    rfl
  exact dropWhile_head?_false l c hh

theorem pyStrip_getLast? (l : List Char) (c : Char) (h : (pyStrip l).getLast? = some c) :
    isPySpace c = false := by
  unfold pyStrip dropTrail at h
  rw [List.getLast?_reverse] at h
  exact dropWhile_head?_false _ c h

theorem pyStrip_length_le (l : List Char) : (pyStrip l).length ≤ l.length := by
  unfold pyStrip dropTrail
  rw [List.length_reverse]
  have h1 := (List.dropWhile_sublist (l := (l.dropWhile isPySpace).reverse)
    (p := isPySpace)).length_le
  rw [List.length_reverse] at h1
  have h2 := (List.dropWhile_sublist (l := l) (p := isPySpace)).length_le
  omega

theorem collapseWS_head?_false {l : List Char}
    (hl : ∀ c, l.head? = some c → isPySpace c = false) :
    ∀ c, (collapseWS l).head? = some c → isPySpace c = false := by
  intro c hc
  cases l with
  | nil => simp [collapseWS, collapseAux] at hc
  | cons a rest =>
    have ha := hl a List.head?_cons
    unfold collapseWS collapseAux at hc
    rw [if_neg (by simp [ha])] at hc
    rw [List.head?_cons, Option.some_inj] at hc
    subst hc
    exact ha

/-- C4: every snippet of a scan record equals the 80-code-point context
window around the match, clipped to the text boundaries, whitespace-
collapsed and trimmed; consequently it contains no newline or tab, no
two adjacent whitespace characters (so no run of two or more spaces),
starts and ends with non-whitespace, and its length is at most
160 + (end - start). -/
theorem C4_snippet_spec (t : List Char) (cats : Option (List String)) (r : MatchRecord)
    (hr : r ∈ scan_text t cats) :
    r.snippet = collapseWS (pyStrip (pySlice t (r.start - 80) (min t.length (r.stop + 80)))) ∧
    Char.ofNat 10 ∉ r.snippet ∧ Char.ofNat 9 ∉ r.snippet ∧
    List.Chain' (fun a b => ¬(isPySpace a = true ∧ isPySpace b = true)) r.snippet ∧
    (∀ c, r.snippet.head? = some c → isPySpace c = false) ∧
    (∀ c, r.snippet.getLast? = some c → isPySpace c = false) ∧
    r.snippet.length ≤ 160 + (r.stop - r.start) := by
  simp only [scan_text, List.mem_flatMap] at hr
  rcases hr with ⟨kv, hkv, p, hp, hrec⟩
  have hs' : r.snippet =
      collapseWS (pyStrip (pySlice t (r.start - 80) (min t.length (r.stop + 80)))) :=
    (mem_patRecords hrec).2.2.2.1
  set L := pySlice t (r.start - 80) (min t.length (r.stop + 80)) with hL
  refine ⟨hs', ?_, ?_, ?_, ?_, ?_, ?_⟩
  · rw [hs']
    intro hmem
    have := collapseAux_space_is_space _ false _ hmem (by decide)
    exact absurd this (by decide)
  · rw [hs']
    intro hmem
    have := collapseAux_space_is_space _ false _ hmem (by decide)
    exact absurd this (by decide)
  · rw [hs']
    exact (collapseAux_chain_head _ false).1
  · rw [hs']
    exact collapseWS_head?_false (fun c hc => pyStrip_head? L c hc)
  · rw [hs']
    intro c hc
    rcases hgl : (pyStrip L).getLast? with _ | cl
    · have hnil : pyStrip L = [] := List.getLast?_eq_none_iff.mp hgl
      rw [hnil] at hc
      simp [collapseWS, collapseAux] at hc
    · have hsp' := pyStrip_getLast? L cl hgl
      have heq := collapseAux_getLast? (pyStrip L) false cl hgl hsp'
      have hcw : collapseWS (pyStrip L) = collapseAux false (pyStrip L) := rfl
      rw [hcw, heq, Option.some_inj] at hc
      subst hc
      exact hsp'
  · rw [hs']
    have h1 := collapseAux_length_le (pyStrip L) false
    have h2 := pyStrip_length_le L
    have h3 : L.length ≤ min t.length (r.stop + 80) - (r.start - 80) := by
      rw [hL]
      unfold pySlice
      rw [List.length_take]
      exact Nat.min_le_left _ _
    have h4 : min t.length (r.stop + 80) ≤ r.stop + 80 := Nat.min_le_right _ _
    show (collapseAux false (pyStrip L)).length ≤ 160 + (r.stop - r.start)
    omega

/- The record the `finalita_kw` pattern produces on the text "scopi". -/
def recScopi : MatchRecord :=
  { category := "purposes_bases", pattern := "finalita_kw", start := 0, stop := 5,
    snippet := scopiTxt, checklist_ids := ["GDPR_13_1_c_finalita"],
    description := "Parola chiave " ++ apoS ++ "finalità/scopi" ++ apoS }

set_option maxRecDepth 1000000 in
/-- Witness for C4 at a concrete record of a concrete scan. -/
theorem C4_snippet_spec_witness :
    recScopi ∈ scan_text scopiTxt none ∧
      (recScopi.snippet = collapseWS (pyStrip (pySlice scopiTxt (recScopi.start - 80)
          (min scopiTxt.length (recScopi.stop + 80)))) ∧
       Char.ofNat 10 ∉ recScopi.snippet ∧ Char.ofNat 9 ∉ recScopi.snippet ∧
       List.Chain' (fun a b => ¬(isPySpace a = true ∧ isPySpace b = true)) recScopi.snippet ∧
       (∀ c, recScopi.snippet.head? = some c → isPySpace c = false) ∧
       (∀ c, recScopi.snippet.getLast? = some c → isPySpace c = false) ∧
       recScopi.snippet.length ≤ 160 + (recScopi.stop - recScopi.start)) :=
  ⟨by decide, C4_snippet_spec scopiTxt none recScopi (by decide)⟩

/- Ordering keys: position of a category in the catalog and of a
pattern within its category. -/
def catKeyIdx (c : String) : Nat := (CATEGORIES.map Prod.fst).indexOf c

def patKeyIdx (c p : String) : Nat :=
  match CATEGORIES.lookup c with
  | some ps => (ps.map PatternDef.name).indexOf p
  | none => 0

/- The catalog order on records: category block first (catalog order),
then pattern block (declaration order within the category), then
occurrence position ascending. -/
def recBefore (a b : MatchRecord) : Prop :=
  catKeyIdx a.category < catKeyIdx b.category ∨
    (a.category = b.category ∧
      (patKeyIdx a.category a.pattern < patKeyIdx b.category b.pattern ∨
        (a.pattern = b.pattern ∧ a.start < b.start)))

set_option maxRecDepth 100000 in
/- Category keys appear in the catalog with strictly increasing
positions (the keys are pairwise distinct). -/
theorem catKeyIdx_pairwise :
    List.Pairwise (fun kv1 kv2 : String × List PatternDef =>
      catKeyIdx kv1.1 < catKeyIdx kv2.1) CATEGORIES := by decide

set_option maxRecDepth 1000000 in
/- Pattern names appear in each category with strictly increasing
positions (names are unique within a category). -/
theorem patKeyIdx_pairwise :
    ∀ kv ∈ CATEGORIES, List.Pairwise (fun p1 p2 : PatternDef =>
      patKeyIdx kv.1 p1.name < patKeyIdx kv.1 p2.name) kv.2 := by decide

/- Occurrences of a single pattern are reported at strictly increasing
start offsets. -/
theorem patRecords_start_pairwise (t : List Char) (c : String) (p : PatternDef) :
    List.Pairwise (fun a b : MatchRecord => a.start < b.start) (patRecords t c p) := by
  unfold patRecords
  rw [List.pairwise_map]
  exact fIterGo_pairwise _ _

theorem mem_flatMap_patRecords {t : List Char} {c : String} {ps : List PatternDef}
    {r : MatchRecord} (h : r ∈ ps.flatMap (patRecords t c)) : r.category = c := by
  rcases List.mem_flatMap.mp h with ⟨p, _, hr⟩
  exact (mem_patRecords hr).1

/- All records of one category block are internally in catalog order. -/
theorem catBlock_pairwise (t : List Char) (kv : String × List PatternDef)
    (hkv : kv ∈ CATEGORIES) :
    List.Pairwise recBefore (kv.2.flatMap (patRecords t kv.1)) := by
  rw [List.flatMap_def, List.pairwise_flatten]
  constructor
  · intro l hl
    rcases List.mem_map.mp hl with ⟨p, hp, rfl⟩
    refine (patRecords_start_pairwise t kv.1 p).imp_of_mem ?_
    intro a b ha hb hlt
    right
    have hfa := mem_patRecords ha
    have hfb := mem_patRecords hb
    refine ⟨by rw [hfa.1, hfb.1], Or.inr ⟨by rw [hfa.2.1, hfb.2.1], hlt⟩⟩
  · rw [List.pairwise_map]
    refine (patKeyIdx_pairwise kv hkv).imp_of_mem ?_
    intro p1 p2 _ _ hlt x hx y hy
    have hfx := mem_patRecords hx
    have hfy := mem_patRecords hy
    right
    refine ⟨by rw [hfx.1, hfy.1], Or.inl ?_⟩
    rw [hfx.1, hfx.2.1, hfy.1, hfy.2.1]
    exact hlt

set_option maxRecDepth 1000000 in
/-- C5: the sequence returned by scan is grouped first by category in
catalog declaration order, then by pattern in declaration order within
each category, then by occurrence position ascending within each
pattern; and records from different patterns are NOT globally sorted by
text position (the retention example exhibits a start going down). -/
theorem C5_scan_ordering :
    (∀ (t : List Char) (cats : Option (List String)),
        List.Pairwise recBefore (scan_text t cats)) ∧
      ¬ List.Pairwise (fun a b : MatchRecord => a.start ≤ b.start)
          (scan_text testTxt (some ["retention"])) := by
  constructor
  · intro t cats
    unfold scan_text
    rw [List.flatMap_def, List.pairwise_flatten]
    constructor
    · intro l hl
      rcases List.mem_map.mp hl with ⟨kv, hkv, rfl⟩
      exact catBlock_pairwise t kv (mem_selectCats hkv)
    · rw [List.pairwise_map]
      have hsel := catKeyIdx_pairwise.sublist (selectCats_sublist cats)
      refine hsel.imp ?_
      intro kv1 kv2 hlt x hx y hy
      left
      rw [mem_flatMap_patRecords hx, mem_flatMap_patRecords hy]
      exact hlt
  · decide

/- Evidence-bucket invariants. -/

/- Shorthand for the bucket value type of `evidence_by_checklist`. -/
def Buckets : Type := List (String × List (List Char))

theorem lookup_none_keys {β : Type} (k : String) :
    ∀ (b : List (String × β)), b.lookup k = none → ∀ kv ∈ b, kv.1 ≠ k := by
  intro b
  induction b with
  | nil => intro _ kv h; simp at h
  | cons a rest ih =>
    intro hl kv hkv
    rcases a with ⟨ak, av⟩
    rw [List.lookup_cons] at hl
    split at hl
    · simp at hl
    · rename_i hb
      rcases List.mem_cons.mp hkv with rfl | hkv
      · show ak ≠ k
        intro hc
        subst hc
        simp at hb
      · exact ih hl kv hkv

theorem lookup_some_key_mem {β : Type} (k : String) :
    ∀ (b : List (String × β)) (v : β), b.lookup k = some v → k ∈ b.map Prod.fst := by
  intro b
  induction b with
  | nil => intro v h; simp [List.lookup] at h
  | cons a rest ih =>
    intro v hl
    rcases a with ⟨ak, av⟩
    rw [List.lookup_cons] at hl
    split at hl
    · rename_i hb
      have hk : k = ak := by simpa using hb
      simp [hk]
    · exact List.mem_cons.mpr (Or.inr (ih v hl))

/- With pairwise-distinct keys, a successful lookup pins down the value
of any member with the looked-up key. -/
theorem lookup_unique {β : Type} :
    ∀ (b : List (String × β)), (b.map Prod.fst).Nodup →
      ∀ kv ∈ b, ∀ v, b.lookup kv.1 = some v → kv.2 = v := by
  intro b
  induction b with
  | nil => intro _ kv h; simp at h
  | cons a rest ih =>
    intro hnd kv hkv v hl
    rcases a with ⟨ak, av⟩
    rw [List.map_cons, List.nodup_cons] at hnd
    rcases List.mem_cons.mp hkv with rfl | hkv
    · rw [List.lookup_cons] at hl
      split at hl
      · simp at hl
        exact hl
      · rename_i hb
        simp at hb
    · rw [List.lookup_cons] at hl
      split at hl
      · rename_i hb
        have hkak : kv.1 = ak := by simpa using hb
        exact absurd (hkak ▸ List.mem_map.mpr ⟨kv, hkv, rfl⟩) hnd.1
      · exact ih hnd.2 kv hkv v hl

/- Joint invariant of the evidence fold: keys are pairwise distinct and
every bucket is duplicate-free and non-empty. -/
def bucketsWF (b : List (String × List (List Char))) : Prop :=
  (b.map Prod.fst).Nodup ∧ ∀ kv ∈ b, kv.2.Nodup ∧ kv.2 ≠ []

/- The three case equations of `addSnippet`. -/
theorem addSnippet_none {b : List (String × List (List Char))} {cid : String}
    {snip : List Char} (hl : b.lookup cid = none) :
    addSnippet b cid snip = b ++ [(cid, [snip])] := by
  unfold addSnippet
  rw [hl]

theorem addSnippet_dup {b : List (String × List (List Char))} {cid : String}
    {snip : List Char} {l : List (List Char)} (hl : b.lookup cid = some l)
    (hs : snip ∈ l) : addSnippet b cid snip = b := by
  unfold addSnippet
  rw [hl]
  show (if snip ∈ l then b else _) = b
  rw [if_pos hs]

theorem addSnippet_app {b : List (String × List (List Char))} {cid : String}
    {snip : List Char} {l : List (List Char)} (hl : b.lookup cid = some l)
    (hs : snip ∉ l) :
    addSnippet b cid snip =
      b.map (fun kv => if kv.1 = cid then (kv.1, kv.2 ++ [snip]) else kv) := by
  unfold addSnippet
  rw [hl]
  show (if snip ∈ l then b else _) = _
  rw [if_neg hs]

theorem update_map_fst (b : List (String × List (List Char))) (cid : String)
    (snip : List Char) :
    (b.map (fun kv => if kv.1 = cid then (kv.1, kv.2 ++ [snip]) else kv)).map Prod.fst =
      b.map Prod.fst := by
  rw [List.map_map]
  apply List.map_congr_left
  intro kv _
  by_cases hc : kv.1 = cid <;> simp [hc]

/- The keys after one insertion: either the looked-up key is appended
(when absent) or the key list is unchanged. -/
theorem addSnippet_keys (b : List (String × List (List Char))) (cid : String)
    (snip : List Char) :
    (addSnippet b cid snip).map Prod.fst = b.map Prod.fst ++ [cid] ∨
      (addSnippet b cid snip).map Prod.fst = b.map Prod.fst := by
  rcases hl : b.lookup cid with _ | l
  · left
    rw [addSnippet_none hl, List.map_append]
    simp
  · by_cases hs : snip ∈ l
    · right
      rw [addSnippet_dup hl hs]
    · right
      rw [addSnippet_app hl hs]
      exact update_map_fst b cid snip

theorem addSnippet_wf {b : List (String × List (List Char))} {cid : String}
    {snip : List Char} (h : bucketsWF b) : bucketsWF (addSnippet b cid snip) := by
  rcases hl : b.lookup cid with _ | l
  · rw [addSnippet_none hl]
    constructor
    · rw [List.map_append, List.nodup_append]
      refine ⟨h.1, by simp, ?_⟩
      intro k hk hk2
      simp at hk2
      rcases List.mem_map.mp hk with ⟨kv, hkv, hfst⟩
      exact lookup_none_keys cid b hl kv hkv (hfst.trans hk2)
    · intro kv hkv
      rcases List.mem_append.mp hkv with hkv | hkv
      · exact h.2 kv hkv
      · simp at hkv
        subst hkv
        exact ⟨by simp, by simp⟩
  · by_cases hs : snip ∈ l
    · rw [addSnippet_dup hl hs]
      exact h
    · rw [addSnippet_app hl hs]
      constructor
      · rw [update_map_fst]
        exact h.1
      · intro kv2 hkv2
        rcases List.mem_map.mp hkv2 with ⟨kv, hkv, heq⟩
        by_cases hc : kv.1 = cid
        · rw [if_pos hc] at heq
          subst heq
          have hkv2eq : kv.2 = l := lookup_unique b h.1 kv hkv l (by rw [hc]; exact hl)
          constructor
          · rw [List.nodup_append]
            refine ⟨(h.2 kv hkv).1, by simp, ?_⟩
            intro x hx hx2
            simp at hx2
            rw [hx2, hkv2eq] at hx
            exact hs hx
          · simp
        · rw [if_neg hc] at heq
          subst heq
          exact h.2 kv hkv

theorem foldl_addSnippet_wf (snip : List Char) :
    ∀ (cids : List String) (b : List (String × List (List Char))), bucketsWF b →
      bucketsWF (cids.foldl (fun b cid => addSnippet b cid snip) b) := by
  intro cids
  induction cids with
  | nil => intro b h; exact h
  | cons c rest ih =>
    intro b h
    exact ih (addSnippet b c snip) (addSnippet_wf h)

theorem addRecord_wf {b : List (String × List (List Char))} (h : bucketsWF b)
    (r : MatchRecord) : bucketsWF (addRecord b r) :=
  foldl_addSnippet_wf r.snippet r.checklist_ids b h

theorem foldl_addRecord_wf :
    ∀ (hits : List MatchRecord) (b : List (String × List (List Char))), bucketsWF b →
      bucketsWF (hits.foldl addRecord b) := by
  intro hits
  induction hits with
  | nil => intro b h; exact h
  | cons r rest ih =>
    intro b h
    exact ih (addRecord b r) (addRecord_wf h r)

theorem evidence_wf (t : List Char) : bucketsWF (evidence_by_checklist t) :=
  foldl_addRecord_wf (scan_text t none) [] ⟨by simp, by simp⟩

/-- C6: in the mapping returned by `evidence_by_checklist` no bucket
contains two equal snippet strings (a snippet already present by exact
equality is not added again, first-appearance order is preserved by the
in-place append), and running the function twice on the same text yields
identical mappings. -/
theorem C6_evidence_dedup_idem (t : List Char) :
    (∀ kv ∈ evidence_by_checklist t, kv.2.Nodup) ∧
      evidence_by_checklist t = evidence_by_checklist t :=
  ⟨fun kv hkv => ((evidence_wf t).2 kv hkv).1, rfl⟩

/- The single bucket the retention sentence produces for the
conservazione checklist id (three records, one deduplicated snippet). -/
def kvConservazione : String × List (List Char) :=
  ("GDPR_13_2_a_conservazione", [testTxt])

set_option maxRecDepth 1000000 in
/-- Witness for C6 at a concrete bucket of a concrete text. -/
theorem C6_evidence_dedup_idem_witness :
    kvConservazione ∈ evidence_by_checklist testTxt ∧ kvConservazione.2.Nodup :=
  ⟨by decide, (C6_evidence_dedup_idem testTxt).1 kvConservazione (by decide)⟩

/- Key membership along the evidence fold. -/

theorem addSnippet_keys_mono {b : List (String × List (List Char))} {cid k : String}
    {snip : List Char} (h : k ∈ b.map Prod.fst) :
    k ∈ (addSnippet b cid snip).map Prod.fst := by
  rcases addSnippet_keys b cid snip with he | he
  · rw [he]; exact List.mem_append.mpr (Or.inl h)
  · rw [he]; exact h

theorem addSnippet_key_self {b : List (String × List (List Char))} {cid : String}
    {snip : List Char} : cid ∈ (addSnippet b cid snip).map Prod.fst := by
  rcases hl : b.lookup cid with _ | l
  · rw [addSnippet_none hl, List.map_append]
    simp
  · have hmem : cid ∈ b.map Prod.fst := lookup_some_key_mem cid b l hl
    by_cases hs : snip ∈ l
    · rw [addSnippet_dup hl hs]; exact hmem
    · rw [addSnippet_app hl hs, update_map_fst]; exact hmem

theorem addSnippet_keys_sub {b : List (String × List (List Char))} {cid k : String}
    {snip : List Char} (h : k ∈ (addSnippet b cid snip).map Prod.fst) :
    k = cid ∨ k ∈ b.map Prod.fst := by
  rcases addSnippet_keys b cid snip with he | he
  · rw [he] at h
    rcases List.mem_append.mp h with h | h
    · exact Or.inr h
    · simp at h; exact Or.inl h
  · rw [he] at h; exact Or.inr h

theorem foldl_cids_keys_mono (snip : List Char) :
    ∀ (cids : List String) (b : List (String × List (List Char))) (k : String),
      k ∈ b.map Prod.fst →
      k ∈ ((cids.foldl (fun b cid => addSnippet b cid snip) b).map Prod.fst) := by
  intro cids
  induction cids with
  | nil => intro b k h; exact h
  | cons c rest ih => intro b k h; exact ih _ k (addSnippet_keys_mono h)

theorem foldl_cids_key_reached (snip : List Char) :
    ∀ (cids : List String) (b : List (String × List (List Char))) (cid : String),
      cid ∈ cids →
      cid ∈ ((cids.foldl (fun b cid => addSnippet b cid snip) b).map Prod.fst) := by
  intro cids
  induction cids with
  | nil => intro b cid h; simp at h
  | cons c rest ih =>
    intro b cid h
    rcases List.mem_cons.mp h with rfl | h
    · exact foldl_cids_keys_mono snip rest _ cid addSnippet_key_self
    · exact ih _ cid h

theorem foldl_cids_keys_sub (snip : List Char) :
    ∀ (cids : List String) (b : List (String × List (List Char))) (k : String),
      k ∈ ((cids.foldl (fun b cid => addSnippet b cid snip) b).map Prod.fst) →
      k ∈ cids ∨ k ∈ b.map Prod.fst := by
  intro cids
  induction cids with
  | nil => intro b k h; exact Or.inr h
  | cons c rest ih =>
    intro b k h
    rcases ih _ k h with h | h
    · exact Or.inl (List.mem_cons.mpr (Or.inr h))
    · rcases addSnippet_keys_sub h with h | h
      · exact Or.inl (List.mem_cons.mpr (Or.inl h))
      · exact Or.inr h

theorem foldl_hits_keys_mono :
    ∀ (hits : List MatchRecord) (b : List (String × List (List Char))) (k : String),
      k ∈ b.map Prod.fst → k ∈ (hits.foldl addRecord b).map Prod.fst := by
  intro hits
  induction hits with
  | nil => intro b k h; exact h
  | cons r rest ih =>
    intro b k h
    exact ih _ k (foldl_cids_keys_mono r.snippet r.checklist_ids b k h)

theorem foldl_hits_key_reached :
    ∀ (hits : List MatchRecord) (b : List (String × List (List Char)))
      (r : MatchRecord) (cid : String), r ∈ hits → cid ∈ r.checklist_ids →
      cid ∈ (hits.foldl addRecord b).map Prod.fst := by
  intro hits
  induction hits with
  | nil => intro b r cid h; simp at h
  | cons r0 rest ih =>
    intro b r cid hr hcid
    rcases List.mem_cons.mp hr with rfl | hr
    · exact foldl_hits_keys_mono rest _ cid
        (foldl_cids_key_reached r.snippet r.checklist_ids b cid hcid)
    · exact ih _ r cid hr hcid

theorem foldl_hits_keys_sub :
    ∀ (hits : List MatchRecord) (b : List (String × List (List Char))) (k : String),
      k ∈ (hits.foldl addRecord b).map Prod.fst →
      (∃ r ∈ hits, k ∈ r.checklist_ids) ∨ k ∈ b.map Prod.fst := by
  intro hits
  induction hits with
  | nil => intro b k h; exact Or.inr h
  | cons r0 rest ih =>
    intro b k h
    rcases ih _ k h with ⟨r, hr, hcid⟩ | h
    · exact Or.inl ⟨r, List.mem_cons.mpr (Or.inr hr), hcid⟩
    · rcases foldl_cids_keys_sub r0.snippet r0.checklist_ids b k h with h | h
      · exact Or.inl ⟨r0, List.mem_cons.mpr (Or.inl rfl), h⟩
      · exact Or.inr h

/-- C7: a checklist id carried by no match of the scan does not appear
as a key of `evidence_by_checklist` at all — a key is present exactly
when some scanned record carries it — and every key present maps to a
non-empty sequence of snippets. -/
theorem C7_evidence_keys (t : List Char) :
    (∀ kv ∈ evidence_by_checklist t, kv.2 ≠ []) ∧
      ∀ cid : String,
        (∃ kv ∈ evidence_by_checklist t, kv.1 = cid) ↔
          ∃ r ∈ scan_text t none, cid ∈ r.checklist_ids := by
  constructor
  · intro kv hkv
    exact ((evidence_wf t).2 kv hkv).2
  · intro cid
    constructor
    · rintro ⟨kv, hkv, rfl⟩
      have hk : kv.1 ∈ (evidence_by_checklist t).map Prod.fst :=
        List.mem_map.mpr ⟨kv, hkv, rfl⟩
      rcases foldl_hits_keys_sub (scan_text t none) [] kv.1 hk with h | h
      · exact h
      · simp at h
    · rintro ⟨r, hr, hcid⟩
      have hk : cid ∈ (evidence_by_checklist t).map Prod.fst :=
        foldl_hits_key_reached (scan_text t none) [] r cid hr hcid
      rcases List.mem_map.mp hk with ⟨kv, hkv, hfst⟩
      exact ⟨kv, hkv, hfst⟩

set_option maxRecDepth 1000000 in
/-- Witness for C7 at a concrete bucket of a concrete text. -/
theorem C7_evidence_keys_witness :
    kvConservazione ∈ evidence_by_checklist testTxt ∧ kvConservazione.2 ≠ [] :=
  ⟨by decide, (C7_evidence_keys testTxt).1 kvConservazione (by decide)⟩

end PolicyRules
